import Mathlib

/-!
Verification development for the StreamSource Postgres stream store
(src/src/postgres/pg-stream-store.ts, current revision, plus the error
taxonomy in src/errors/errors.ts).  Pure fragments of the TypeScript are
embedded as executable Lean definitions; stateful fragments are embedded
as explicit state passing.  Modules of the repository that are not under
src/ (utils/invariant, utils/gap-detection, types/messages) are modelled
from the specification and marked as such in their doc comments.
-/

namespace StreamSource

/-- JS `String.prototype.endsWith`, embedded via character-list suffix testing. -/
def strEndsWith (s p : String) : Bool :=
  p.data.isSuffixOf s.data

/-- JS `String.prototype.startsWith`, embedded via character-list prefix
testing. -/
def strStartsWith (s p : String) : Bool :=
  p.data.isPrefixOf s.data

/-- JS `||` on an optional numeric configuration value: null, undefined and
the falsy number 0 all fall back to the default. -/
def jsOrNum (v : Option Nat) (d : Nat) : Nat :=
  match v with
  | some n => if n = 0 then d else n
  | none => d

/-- JS `x || null` on a nullable numeric column: null and 0 map to null. -/
def jsOrNull (v : Option Int) : Option Int :=
  match v with
  | some n => if n = 0 then none else some n
  | none => none

/-- ExpectedVersion.Any sentinel (types/stream-store). -/
def expectedVersionAny : Int := -2

/-- ExpectedVersion.Empty sentinel (types/stream-store). -/
def expectedVersionEmpty : Int := -1

/-- The special `current_version` code returned by the append sproc on a
concurrency conflict (enum AppendResultCodes.ConcurrencyIssue). -/
def concurrencyIssueCode : Int := -9

/-- The surface of a Postgres driver error that the classification code
inspects: its `message` and its `detail` field. -/
structure PgError where
  message : String
  detail : String
  deriving DecidableEq

/-- Error taxonomy from src/errors/errors.ts. -/
inductive StoreError
  | concurrency
  | duplicateMessage (id : String)
  | inconsistentStreamType
  | disposed (msg : String)
  | invalidParameter (msg : String)
  | storage (e : PgError)
  deriving DecidableEq

/-- The `message` property of each error object, as fixed by errors.ts
(MakeErrorClass default messages) or carried by the driver error. -/
def errMessage : StoreError → String
  | .concurrency => "The expected version did not match that of the event store."
  | .duplicateMessage id => "Cannot insert message with duplicate ID \"" ++ id ++ "\""
  | .inconsistentStreamType => "Attempted to write to a stream, but the stream type did not match."
  | .disposed m => m
  | .invalidParameter m => m
  | .storage e => e.message

/-- The `detail` property: present on driver errors, undefined elsewhere. -/
def errDetail : StoreError → String
  | .storage e => e.detail
  | _ => ""

/-- isConcurrencyUniqueConstraintViolation from pg-stream-store.ts. -/
def isConcurrencyUniqueConstraintViolation (err : StoreError) : Bool :=
  strEndsWith (errMessage err) "\"stream_id_key\"" ||
  strEndsWith (errMessage err) "\"message_stream_id_internal_stream_version_unique\""

/-- isDuplicateMessageIdUniqueConstraintViolation from pg-stream-store.ts. -/
def isDuplicateMessageIdUniqueConstraintViolation (err : StoreError) : Bool :=
  strEndsWith (errMessage err) "\"message_message_id_key\""

/-- The capture group of the JS regex =\((.*?)\): collect characters after
the opening parenthesis up to the first closing one; `.` does not match a
newline, so a newline before any closing parenthesis means no match. -/
def captureGroup : List Char → Option (List Char)
  | [] => none
  | c :: rest =>
      if c = ')' then some []
      else if c = Char.ofNat 10 then none
      else (captureGroup rest).map (fun l => c :: l)

/-- The leftmost match of the JS regex =\((.*?)\) over a character list:
scan for an equals sign followed by an opening parenthesis whose group can
be closed; on a failed group, resume the scan one character further. -/
def findEqParen : List Char → Option (List Char)
  | [] => none
  | c :: rest =>
      if c = '=' then
        match rest with
        | '(' :: rest2 =>
            match captureGroup rest2 with
            | some cap => some cap
            | none => findEqParen rest
        | _ => findEqParen rest
      else findEqParen rest

/-- extractUuidKeyFromConstraintViolationError from pg-stream-store.ts:
first capture of the pattern =\((.*?)\) on the error detail, or the
fallback string when the pattern does not match. -/
def extractUuidKeyFromConstraintViolationError (err : StoreError) : String :=
  match findEqParen (errDetail err).data with
  | some cap => ⟨cap⟩
  | none => "[unable to parse]"

/-- Outcome of inspecting a thrown append/delete error: retry the
operation (the source calls `again(error)`) or fail with the given error. -/
inductive AppendFailure
  | retryAgain (e : StoreError)
  | fail (e : StoreError)
  deriving DecidableEq

/-- handlePotentialConcurrencyError from pg-stream-store.ts: a concurrency
unique-constraint violation is retried only under ExpectedVersion.Any and
otherwise becomes a ConcurrencyError; a duplicate message id violation
becomes a DuplicateMessageError carrying the extracted key; everything
else passes through. -/
def handlePotentialConcurrencyError (error : StoreError) (expectedVersion : Int) :
    AppendFailure :=
  if isConcurrencyUniqueConstraintViolation error then
    if expectedVersion = expectedVersionAny then .retryAgain error
    else .fail .concurrency
  else if isDuplicateMessageIdUniqueConstraintViolation error then
    .fail (.duplicateMessage (extractUuidKeyFromConstraintViolationError error))
  else .fail error

/-- RetryOptions of the fejl retry combinator, as configured by the store. -/
structure RetryOptions where
  factor : Rat
  tries : Nat
  minTimeout : Nat
  maxTimeout : Nat
  deriving DecidableEq

/-- retryOpts from pg-stream-store.ts. -/
def retryOpts : RetryOptions :=
  { factor := 1.05, tries := 200, minTimeout := 0, maxTimeout := 50 }

/-- Row returned by the append sproc (interface InsertResult). -/
structure InsertResult where
  current_version : Int
  current_position : String
  max_age : Option Int
  max_count : Option Int
  deriving DecidableEq

/-- Result of appendToStream as returned to the caller. -/
structure AppendResult where
  streamVersion : Int
  streamPosition : String
  deriving DecidableEq

/-- Outcome of one storage round-trip of the append sproc: a result row,
or a raised driver error. -/
inductive AttemptOutcome
  | ok (r : InsertResult)
  | errored (e : PgError)

/-- One pass of retryableAppendToStream: insert, then throwIfErrorCode on
the sentinel version, with the catch block deferring to
handlePotentialConcurrencyError. -/
def runAppendAttempt (expectedVersion : Int) (o : AttemptOutcome) :
    Except AppendFailure AppendResult :=
  match o with
  | .ok r =>
      if r.current_version = concurrencyIssueCode then
        .error (handlePotentialConcurrencyError .concurrency expectedVersion)
      else
        .ok { streamVersion := r.current_version, streamPosition := r.current_position }
  | .errored e => .error (handlePotentialConcurrencyError (.storage e) expectedVersion)

/-- The fejl retry loop around retryableAppendToStream: an error thrown
through `again` consumes one unit of remaining fuel and runs the next
attempt; any other error, and exhausted fuel, end the loop.  The second
component counts the storage attempts made. -/
def retryLoop (expectedVersion : Int) (attempts : Nat → AttemptOutcome) :
    Nat → Nat → Except StoreError AppendResult × Nat
  | i, 0 =>
      (match runAppendAttempt expectedVersion (attempts i) with
       | .ok r => (.ok r, i + 1)
       | .error (.fail e) => (.error e, i + 1)
       | .error (.retryAgain e) => (.error e, i + 1))
  | i, fuel + 1 =>
      match runAppendAttempt expectedVersion (attempts i) with
      | .ok r => (.ok r, i + 1)
      | .error (.fail e) => (.error e, i + 1)
      | .error (.retryAgain _) => retryLoop expectedVersion attempts (i + 1) fuel

/-- retry(retryableAppendToStream, retryOpts): up to retryOpts.tries
attempts in total. -/
def appendRetry (expectedVersion : Int) (attempts : Nat → AttemptOutcome) :
    Except StoreError AppendResult × Nat :=
  retryLoop expectedVersion attempts 0 (retryOpts.tries - 1)

/-- Modelled from the spec: src/utils/invariant is not under src.  The
invariant module rejects absent or empty required string parameters with
an InvalidParameterError whose message is "<field> is required". -/
def requiredStringCheck (name : String) (v : Option String) : Option String :=
  match v with
  | some s => if s = "" then some (name ++ " is required") else none
  | none => some (name ++ " is required")

/-- Modelled from the spec: src/utils/invariant is not under src.  A
required parameter that is absent (or a falsy value such as the empty
string, summarised by the Bool argument) is rejected with
"<field> is required". -/
def requiredCheck (name : String) (present : Bool) : Option String :=
  if present then none else some (name ++ " is required")

/-- Modelled from the spec: src/utils/invariant is not under src.  Stream
ids beginning with a dollar sign are reserved for operational streams and
rejected with an InvalidParameterError. -/
def notOperationalStreamCheck (name : String) (v : String) : Option String :=
  if strStartsWith v "$" then
    some (name ++ " must not start with $")
  else none

/-- Hexadecimal digit test used by the UUID shape check. -/
def isHexDigit (c : Char) : Bool :=
  c.isDigit || (97 ≤ c.toNat && c.toNat ≤ 102) || (65 ≤ c.toNat && c.toNat ≤ 70)

/-- Split a character list on dashes; always returns at least one group. -/
def splitDash : List Char → List (List Char)
  | [] => [[]]
  | c :: rest =>
      match splitDash rest with
      | [] => [[]]
      | g :: gs => if c = '-' then [] :: g :: gs else (c :: g) :: gs

/-- Modelled from the spec: src/utils/invariant is not under src.  A UUID
is five dash-separated hexadecimal groups of lengths 8-4-4-4-12. -/
def isUuid (s : String) : Bool :=
  let parts := splitDash s.data
  parts.length == 5 &&
  parts.map (fun p => p.length) == [8, 4, 4, 4, 12] &&
  parts.all (fun p => p.all isHexDigit)

/-- Modelled from the spec: src/utils/invariant is not under src.  A
message id that is not a UUID is rejected with "<field> must be a UUID". -/
def uuidCheck (name : String) (v : String) : Option String :=
  if isUuid v then none else some (name ++ " must be a UUID")

/-- A message passed to appendToStream; `none` fields model absent or
null JS values (types/messages NewStreamMessage, payload kept abstract). -/
structure NewStreamMessage where
  messageId : Option String
  type : Option String
  data : Option Unit
  deriving DecidableEq

/-- The per-message invariant calls of appendToStream, in source order:
required messageId, messageId is a UUID, required type, required data. -/
def validateMessage (i : Nat) (m : NewStreamMessage) : Option String :=
  match requiredCheck ("newMessages[" ++ toString i ++ "].messageId") m.messageId.isSome with
  | some e => some e
  | none =>
  match uuidCheck ("newMessages[" ++ toString i ++ "].messageId") (m.messageId.getD "") with
  | some e => some e
  | none =>
  match requiredCheck ("newMessages[" ++ toString i ++ "].type") (m.type.getD "" != "") with
  | some e => some e
  | none => requiredCheck ("newMessages[" ++ toString i ++ "].data") m.data.isSome

/-- The newMessages.forEach validation loop of appendToStream. -/
def validateMessages : Nat → List NewStreamMessage → Option String
  | _, [] => none
  | i, m :: rest =>
      match validateMessage i m with
      | some e => some e
      | none => validateMessages (i + 1) rest

/-- The full validation prefix of appendToStream, in source order:
requiredString streamId, notOperationalStream streamId, required
expectedVersion, required newMessages, then the per-message checks. -/
def validateAppend (streamId : Option String) (expectedVersion : Option Int)
    (newMessages : Option (List NewStreamMessage)) : Option String :=
  match requiredStringCheck "streamId" streamId with
  | some e => some e
  | none =>
  match notOperationalStreamCheck "streamId" (streamId.getD "") with
  | some e => some e
  | none =>
  match requiredCheck "expectedVersion" expectedVersion.isSome with
  | some e => some e
  | none =>
  match requiredCheck "newMessages" newMessages.isSome with
  | some e => some e
  | none => validateMessages 0 (newMessages.getD [])

deriving instance DecidableEq for Except

/-- Observable trace of one public write operation: its result, whether
the write latch was entered, and how many storage round-trips ran. -/
structure WriteRun (α : Type) where
  result : Except StoreError α
  latchEntered : Bool
  storageAttempts : Nat
  deriving DecidableEq

/-- appendToStream from pg-stream-store.ts: validate, then fail fast with
a DisposedError when the store is disposing, and only otherwise enter the
write latch and run the retried insert. -/
def appendToStreamRun (disposing : Bool) (streamId : Option String)
    (expectedVersion : Option Int) (newMessages : Option (List NewStreamMessage))
    (attempts : Nat → AttemptOutcome) : WriteRun AppendResult :=
  match validateAppend streamId expectedVersion newMessages with
  | some msg => { result := .error (.invalidParameter msg), latchEntered := false, storageAttempts := 0 }
  | none =>
      if disposing then
        { result := .error (.disposed "The stream store has been disposed and is not accepting writes.")
          latchEntered := false
          storageAttempts := 0 }
      else
        let r := appendRetry (expectedVersion.getD 0) attempts
        { result := r.1, latchEntered := true, storageAttempts := r.2 }

/-- The validation prefix of deleteStream: requiredString streamId,
notOperationalStream streamId, required expectedVersion. -/
def validateDeleteStream (streamId : Option String) (expectedVersion : Option Int) :
    Option String :=
  match requiredStringCheck "streamId" streamId with
  | some e => some e
  | none =>
  match notOperationalStreamCheck "streamId" (streamId.getD "") with
  | some e => some e
  | none => requiredCheck "expectedVersion" expectedVersion.isSome

/-- Outcome of one storage round-trip of the delete_stream sproc. -/
inductive DeleteAttemptOutcome
  | ok (code : Int)
  | errored (e : PgError)

/-- One pass of retryableDeleteStream: run the delete, then
throwIfErrorCode on the returned code, with the catch block deferring to
handlePotentialConcurrencyError. -/
def runDeleteAttempt (expectedVersion : Int) (o : DeleteAttemptOutcome) :
    Except AppendFailure Unit :=
  match o with
  | .ok code =>
      if code = concurrencyIssueCode then
        .error (handlePotentialConcurrencyError .concurrency expectedVersion)
      else .ok ()
  | .errored e => .error (handlePotentialConcurrencyError (.storage e) expectedVersion)

/-- The fejl retry loop around retryableDeleteStream, counting attempts. -/
def deleteRetryLoop (expectedVersion : Int) (attempts : Nat → DeleteAttemptOutcome) :
    Nat → Nat → Except StoreError Unit × Nat
  | i, 0 =>
      (match runDeleteAttempt expectedVersion (attempts i) with
       | .ok r => (.ok r, i + 1)
       | .error (.fail e) => (.error e, i + 1)
       | .error (.retryAgain e) => (.error e, i + 1))
  | i, fuel + 1 =>
      match runDeleteAttempt expectedVersion (attempts i) with
      | .ok r => (.ok r, i + 1)
      | .error (.fail e) => (.error e, i + 1)
      | .error (.retryAgain _) => deleteRetryLoop expectedVersion attempts (i + 1) fuel

/-- deleteStream from pg-stream-store.ts: validate, then enter the write
latch and run the retried delete.  The source performs no check of the
disposing flag on this path, so the flag is ignored here. -/
def deleteStreamRun (disposing : Bool) (streamId : Option String)
    (expectedVersion : Option Int) (attempts : Nat → DeleteAttemptOutcome) :
    WriteRun Unit :=
  match validateDeleteStream streamId expectedVersion with
  | some msg => { result := .error (.invalidParameter msg), latchEntered := false, storageAttempts := 0 }
  | none =>
      let r := deleteRetryLoop (expectedVersion.getD 0) attempts 0 (retryOpts.tries - 1)
      { result := r.1, latchEntered := true, storageAttempts := r.2 }

/-- The validation prefix of setStreamMetadata: requiredString streamId,
required expectedVersion, required opts. -/
def validateSetStreamMetadata (streamId : Option String) (expectedVersion : Option Int)
    (optsPresent : Bool) : Option String :=
  match requiredStringCheck "streamId" streamId with
  | some e => some e
  | none =>
  match requiredCheck "expectedVersion" expectedVersion.isSome with
  | some e => some e
  | none => requiredCheck "opts" optsPresent

/-- Outcome of the single set_stream_metadata storage round-trip. -/
inductive MetaAttemptOutcome
  | ok (current_version : Int)
  | errored (e : PgError)

/-- setStreamMetadata from pg-stream-store.ts: validate, enter the write
latch, run one transaction, throwIfErrorCode on the returned version.
The source performs no check of the disposing flag on this path, so the
flag is ignored here. -/
def setStreamMetadataRun (disposing : Bool) (streamId : Option String)
    (expectedVersion : Option Int) (optsPresent : Bool)
    (storage : MetaAttemptOutcome) : WriteRun Int :=
  match validateSetStreamMetadata streamId expectedVersion optsPresent with
  | some msg => { result := .error (.invalidParameter msg), latchEntered := false, storageAttempts := 0 }
  | none =>
      match storage with
      | .ok v =>
          if v = concurrencyIssueCode then
            { result := .error .concurrency, latchEntered := true, storageAttempts := 1 }
          else
            { result := .ok v, latchEntered := true, storageAttempts := 1 }
      | .errored e =>
          { result := .error (.storage e), latchEntered := true, storageAttempts := 1 }

/-- deleteMessage from pg-stream-store.ts, which delegates to
deleteMessages: no validation, enter the write latch, run one
transaction.  The source performs no check of the disposing flag on this
path, so the flag is ignored here. -/
def deleteMessageRun (disposing : Bool) (streamId messageId : String)
    (storage : Except PgError Unit) : WriteRun Unit :=
  match storage with
  | .ok _ => { result := .ok (), latchEntered := true, storageAttempts := 1 }
  | .error e => { result := .error (.storage e), latchEntered := true, storageAttempts := 1 }

/-- Modelled from the spec: types/messages is not under src.  A read
position given to readStream is either the Position.End sentinel or a
concrete version number. -/
inductive ReadFrom
  | endSentinel
  | version (v : Int)
  deriving DecidableEq

/-- Number.MAX_SAFE_INTEGER, the value readStream substitutes for the
Position.End sentinel. -/
def numberMaxSafeInteger : Int := 9007199254740991

/-- MAX_BIG_VALUE from pg-stream-store.ts: the decimal rendering of the
largest signed 64-bit integer, substituted for Position.End by readAll. -/
def maxBigValue : String := "9223372036854775807"

/-- The sentinel substitution performed by readStream before building the
query: Position.End becomes Number.MAX_SAFE_INTEGER. -/
def resolveReadStreamFrom : ReadFrom → Int
  | .endSentinel => numberMaxSafeInteger
  | .version v => v

/-- Arguments of the scripts.readStreamMessages query issued by
readStream. -/
structure ReadStreamQuery where
  streamId : String
  fromVersion : Int
  limit : Int
  forward : Bool
  deriving DecidableEq

/-- The query readStream sends to storage: the sentinel-resolved version
clamped at 0, with one probe row beyond the requested count. -/
def readStreamQueryFor (streamId : String) (fromInput : ReadFrom) (count : Int)
    (forward : Bool) : ReadStreamQuery :=
  { streamId
    fromVersion := max 0 (resolveReadStreamFrom fromInput)
    limit := count + 1
    forward }

/-- A message row as returned by the storage queries. -/
structure MsgRow where
  stream_id : String
  message_id : String
  data : Option Unit
  meta : Option Unit
  created_at : Option Nat
  type : String
  position : Int
  stream_version : Int
  deriving DecidableEq, Inhabited

/-- A mapped message as returned to callers (mapMessageResult output). -/
structure StreamMessage where
  streamId : String
  messageId : String
  data : Option Unit
  meta : Option Unit
  createdAt : Option Nat
  type : String
  position : Int
  streamVersion : Int
  deriving DecidableEq, Inhabited

/-- mapMessageResult from pg-stream-store.ts. -/
def mapMessageResult (m : MsgRow) : StreamMessage :=
  { streamId := m.stream_id
    messageId := m.message_id
    data := m.data
    meta := m.meta
    createdAt := m.created_at
    type := m.type
    position := m.position
    streamVersion := m.stream_version }

/-- The stream-info row returned by scripts.readStreamInfo. -/
structure StreamInfoRow where
  id : String
  stream_version : Int
  position : Int
  max_age : Option Int
  max_count : Option Int
  stream_type : String
  deriving DecidableEq

/-- Result shape of readStream. -/
structure ReadStreamResult where
  streamId : String
  streamVersion : Int
  streamPosition : String
  maxAge : Option Int
  maxCount : Option Int
  streamType : Option String
  nextVersion : Int
  isEnd : Bool
  messages : List StreamMessage
  deriving DecidableEq

/-- mapReadStreamResult from pg-stream-store.ts.  The default row in the
backward branch models the unreachable JS null dereference: every caller
passes a non-empty page whenever isEnd is false. -/
def mapReadStreamResult (messages : List MsgRow) (streamInfo : StreamInfoRow)
    (isEnd : Bool) (forward : Bool) : ReadStreamResult :=
  let lastMessage := messages.getLast?
  { streamId := streamInfo.id
    streamVersion := streamInfo.stream_version
    streamPosition := toString streamInfo.position
    maxAge := jsOrNull streamInfo.max_age
    maxCount := jsOrNull streamInfo.max_count
    streamType := some streamInfo.stream_type
    nextVersion :=
      if forward then
        (match lastMessage with
         | some m => if isEnd then streamInfo.stream_version else m.stream_version
         | none => streamInfo.stream_version) + 1
      else
        max 0 ((if isEnd then 0 else (lastMessage.getD default).stream_version) - 1)
    isEnd := isEnd
    messages := messages.map mapMessageResult }

/-- The zero result readStream returns when the stream does not exist. -/
def zeroReadStreamResult (streamId : String) : ReadStreamResult :=
  { nextVersion := 0
    streamId := streamId
    streamPosition := "0"
    streamVersion := 0
    maxAge := some 0
    maxCount := some 0
    streamType := none
    isEnd := true
    messages := [] }

/-- The combined round-trip of readStream: the message rows and the
stream-info row (read after the messages). -/
structure StreamPage where
  rows : List MsgRow
  info : Option StreamInfoRow
  deriving DecidableEq

/-- readStream from pg-stream-store.ts: validate, resolve the sentinel,
query messages and info together, return the zero result for an unknown
stream, drop the probe row when count + 1 rows came back, and map. -/
def readStream (streamId : Option String) (fromInput : ReadFrom) (count : Int)
    (forward : Bool) (storage : ReadStreamQuery → StreamPage) :
    Except StoreError ReadStreamResult :=
  match requiredStringCheck "streamId" streamId with
  | some msg => .error (.invalidParameter msg)
  | none =>
      if count ≤ 0 then .error (.invalidParameter "count must be greater than zero")
      else
        let page := storage (readStreamQueryFor (streamId.getD "") fromInput count forward)
        match page.info with
        | none => .ok (zeroReadStreamResult (streamId.getD ""))
        | some info =>
            if (page.rows.length : Int) = count + 1 then
              .ok (mapReadStreamResult page.rows.dropLast info false forward)
            else
              .ok (mapReadStreamResult page.rows info true forward)

/-- Modelled from the spec: types/messages is not under src.  A read
position given to readAll is either the Position.End sentinel or a
concrete decimal-string position. -/
inductive ReadAllFrom
  | endSentinel
  | pos (p : String)
  deriving DecidableEq

/-- The sentinel substitution performed by readAllInternal: a value whose
string form equals that of Position.End becomes MAX_BIG_VALUE. -/
def resolveReadAllFrom : ReadAllFrom → String
  | .endSentinel => maxBigValue
  | .pos p => p

/-- Arguments of the scripts.readAllMessages query. -/
structure ReadAllQuery where
  limit : Int
  fromPosition : String
  forward : Bool
  deriving DecidableEq

/-- The query readAllInternal sends to storage: one probe row beyond the
requested count, at the sentinel-resolved position. -/
def readAllQueryFor (fromInput : ReadAllFrom) (count : Int) (forward : Bool) :
    ReadAllQuery :=
  { limit := count + 1, fromPosition := resolveReadAllFrom fromInput, forward }

/-- Result shape of readAll. -/
structure ReadAllResult where
  isEnd : Bool
  nextPosition : String
  messages : List StreamMessage
  deriving DecidableEq

/-- readAllInternal from pg-stream-store.ts: resolve the sentinel, query
count + 1 rows, return the empty page with the resolved input position
(forward) or "0" (backward), otherwise drop the probe row when present
and compute the next position from the last remaining message with
big-integer arithmetic. -/
def readAllInternal (fromInput : ReadAllFrom) (count : Int) (forward : Bool)
    (storage : ReadAllQuery → List MsgRow) : ReadAllResult :=
  let msgs := (storage (readAllQueryFor fromInput count forward)).map mapMessageResult
  if msgs.length = 0 then
    { isEnd := true
      messages := []
      nextPosition := if forward then resolveReadAllFrom fromInput else "0" }
  else
    let isEnd := !((msgs.length : Int) == count + 1)
    let trimmed := if (msgs.length : Int) = count + 1 then msgs.dropLast else msgs
    let lastMessage := (trimmed.getLast?).getD default
    { isEnd := isEnd
      nextPosition :=
        if forward then toString (lastMessage.position + 1)
        else toString (max (lastMessage.position - 1) 0)
      messages := trimmed }

/-- Modelled from the spec: src/utils/gap-detection is not under src.
Adjacent positions differing by more than one constitute a gap. -/
def hasGaps : List StreamMessage → Bool
  | a :: b :: rest => (decide (b.position - a.position > 1)) || hasGaps (b :: rest)
  | _ => false

/-- Modelled from the spec: src/utils/gap-detection is not under src.
One raw forward read; a short page is returned as-is; a page with a gap
is re-read up to the reload budget and then returned regardless. -/
def gapReloadLoop (fromInput : ReadAllFrom) (count : Int)
    (readInternal : ReadAllFrom → Int → Bool → ReadAllResult) :
    Nat → ReadAllResult
  | 0 => readInternal fromInput count true
  | n + 1 =>
      let page := readInternal fromInput count true
      if (page.messages.length : Int) < count then page
      else if hasGaps page.messages then gapReloadLoop fromInput count readInternal n
      else page

/-- Modelled from the spec: detectGapsAndReloadAll wraps forward all-reads
in the gap-reload loop with the configured number of reload attempts. -/
def detectGapsAndReloadAll (gapReloadTimes : Nat) (fromInput : ReadAllFrom)
    (count : Int) (readInternal : ReadAllFrom → Int → Bool → ReadAllResult) :
    ReadAllResult :=
  gapReloadLoop fromInput count readInternal gapReloadTimes

/-- readAll from pg-stream-store.ts: validate, then read backward
directly or forward through gap detection. -/
def readAll (fromInput : Option ReadAllFrom) (count : Option Int)
    (gapReloadTimes : Nat) (storage : ReadAllQuery → List MsgRow)
    (backward : Bool) : Except StoreError ReadAllResult :=
  match requiredCheck "fromPositionInclusive" fromInput.isSome with
  | some msg => .error (.invalidParameter msg)
  | none =>
  match requiredCheck "count" count.isSome with
  | some msg => .error (.invalidParameter msg)
  | none =>
      let c := count.getD 0
      if c ≤ 0 then .error (.invalidParameter "count should be greater than zero")
      else if backward then
        .ok (readAllInternal (fromInput.getD .endSentinel) c false storage)
      else
        .ok (detectGapsAndReloadAll gapReloadTimes (fromInput.getD .endSentinel) c
          (fun f k fwd => readAllInternal f k fwd storage))

/-- toMetadataStreamId from pg-stream-store.ts (current revision). -/
def toMetadataStreamId (streamId : String) : String :=
  "$$" ++ streamId

/-- The readStream query issued by getStreamMetadata: one message from
the end of the metadata stream, reading backward. -/
def getStreamMetadataReadTarget (streamId : String) : ReadStreamQuery :=
  readStreamQueryFor (toMetadataStreamId streamId) .endSentinel 1 false

/-- Arguments of the scripts.append query built by insertMessages. -/
structure AppendQuery where
  streamId : String
  metaStreamId : String
  expectedVersion : Int
  deriving DecidableEq

/-- The append query insertMessages builds: the user stream id together
with its companion metadata stream id. -/
def appendQueryFor (streamId : String) (expectedVersion : Int) : AppendQuery :=
  { streamId, metaStreamId := toMetadataStreamId streamId, expectedVersion }

/-- Arguments of the scripts.setStreamMetadata query. -/
structure SetStreamMetadataQuery where
  streamId : String
  metaStreamId : String
  expectedVersion : Int
  messageType : String
  deriving DecidableEq

/-- The query setStreamMetadata builds: the metadata message of type
$streamMetadata appended to the companion metadata stream. -/
def setStreamMetadataQueryFor (streamId : String) (expectedVersion : Int) :
    SetStreamMetadataQuery :=
  { streamId
    metaStreamId := toMetadataStreamId streamId
    expectedVersion
    messageType := "$streamMetadata" }

/-- Notifier configuration (types/config): polling or pg-notify. -/
inductive NotifierConfig
  | poll (pollingInterval : Option Nat)
  | pgNotify (keepAliveInterval : Option Nat)
  deriving DecidableEq

/-- A created notifier, tagged with a creation counter so distinct
creations are distinguishable. -/
inductive Notifier
  | polling (intervalMs : Nat) (instanceId : Nat)
  | pgNotifications (keepAliveInterval : Option Nat) (instanceId : Nat)
  deriving DecidableEq

/-- The notifier construction switch of getNotifier: pg-notify uses the
configured keep-alive, polling uses the configured interval or 500 ms. -/
def mkNotifier (cfg : NotifierConfig) (instanceId : Nat) : Notifier :=
  match cfg with
  | .pgNotify k => .pgNotifications k instanceId
  | .poll i => .polling (jsOrNum i 500) instanceId

/-- The notifier-related state of a store instance: the cached notifier
and the number of notifiers ever created. -/
structure NotifierState where
  cached : Option Notifier
  createdCount : Nat
  deriving DecidableEq

/-- A fresh store has no notifier. -/
def initialNotifierState : NotifierState :=
  { cached := none, createdCount := 0 }

/-- getNotifier from pg-stream-store.ts: return the cached notifier when
present, otherwise create one and cache it. -/
def getNotifier (cfg : NotifierConfig) (st : NotifierState) :
    Notifier × NotifierState :=
  match st.cached with
  | some n => (n, st)
  | none =>
      let n := mkNotifier cfg st.createdCount
      (n, { cached := some n, createdCount := st.createdCount + 1 })

/-- A subscription request: subscribeToStream or subscribeToAll. -/
inductive SubscribeOp
  | toStream (streamId : String)
  | toAll
  deriving DecidableEq

/-- Both subscribe entry points obtain their notifier through
getNotifier. -/
def subscribeStep (cfg : NotifierConfig) (st : NotifierState) (op : SubscribeOp) :
    Notifier × NotifierState :=
  match op with
  | .toStream _ => getNotifier cfg st
  | .toAll => getNotifier cfg st

/-- A sequence of subscribe calls against one store instance, collecting
the notifier each subscription received. -/
def runSubscribeOps (cfg : NotifierConfig) :
    List SubscribeOp → NotifierState → List Notifier × NotifierState
  | [], st => ([], st)
  | op :: rest, st =>
      let p := subscribeStep cfg st op
      let q := runSubscribeOps cfg rest p.2
      (p.1 :: q.1, q.2)

/-- The probe-row trim applied by the readers: when exactly count + 1
rows came back, the extra probe row is dropped. -/
def pageOf {α : Type} (rows : List α) (count : Int) : List α :=
  if (rows.length : Int) = count + 1 then rows.dropLast else rows

/-- The end-of-stream flag derived from the probe row: the reader is at
the end exactly when fewer than count + 1 rows came back. -/
def pageIsEnd {α : Type} (rows : List α) (count : Int) : Bool :=
  !((rows.length : Int) == count + 1)

/-- Stream version of the last row of a page, with a default for the
empty page. -/
def lastStreamVersionOf (rows : List MsgRow) (d : Int) : Int :=
  match rows.getLast? with
  | some m => m.stream_version
  | none => d

/-- Position of the last message of a page, with a default for the empty
page. -/
def lastPositionOf (msgs : List StreamMessage) (d : Int) : Int :=
  match msgs.getLast? with
  | some m => m.position
  | none => d

/-- Refinement of the per-message validation, written from the words of
the specification: a UUID messageId, a non-empty type and non-null
data. -/
def specMsgValid (m : NewStreamMessage) : Bool :=
  (match m.messageId with
   | some mid => isUuid mid
   | none => false) &&
  (match m.type with
   | some t => !(t == "")
   | none => false) &&
  m.data.isSome

/-- Refinement of the append input validation, written from the words of
the specification: streamId a non-empty string not beginning with a
dollar sign, expectedVersion present, and every message valid. -/
def specValidAppendInputs (streamId : Option String) (expectedVersion : Option Int)
    (newMessages : Option (List NewStreamMessage)) : Bool :=
  match streamId, newMessages with
  | some s, some msgs =>
      !(s == "") && !(strStartsWith s "$") && expectedVersion.isSome &&
      msgs.all specMsgValid
  | _, _ => false

/-- A driver error carrying the stream_id_key unique-constraint name. -/
def concViolationError : PgError :=
  { message := "duplicate key value violates unique constraint \"stream_id_key\""
    detail := "" }

/-- A driver error carrying the message_message_id_key unique-constraint
name together with a Postgres-style detail line. -/
def dupViolationError : PgError :=
  { message := "duplicate key value violates unique constraint \"message_message_id_key\""
    detail := "Key (message_id)=(0a7240b5-e1ac-40fc-91fe-9a28716a0b9e) already exists." }

/-- A successful insert row. -/
def okInsert : InsertResult :=
  { current_version := 3, current_position := "42", max_age := none, max_count := none }

/-- An insert row carrying the concurrency sentinel version. -/
def sentinelInsert : InsertResult :=
  { current_version := -9, current_position := "0", max_age := none, max_count := none }

/-- Storage behaviour whose first attempt hits a concurrency constraint
violation and whose later attempts succeed. -/
def concThenOkAttempts : Nat → AttemptOutcome :=
  fun n => if n = 0 then .errored concViolationError else .ok okInsert

/-- Storage behaviour that always reports the duplicate-message
constraint violation. -/
def dupAttempts : Nat → AttemptOutcome :=
  fun _ => .errored dupViolationError

/-- Storage behaviour whose first attempt returns the concurrency
sentinel row and whose later attempts succeed. -/
def sentinelThenOkAttempts : Nat → AttemptOutcome :=
  fun n => if n = 0 then .ok sentinelInsert else .ok okInsert

/-- A sample message row for concrete evaluations. -/
def sampleRow (v p : Int) : MsgRow :=
  { stream_id := "s1", message_id := "m1", data := some (), meta := none,
    created_at := none, type := "greeting", position := p, stream_version := v }

/-- A sample stream-info row for concrete evaluations. -/
def sampleInfo : StreamInfoRow :=
  { id := "s1", stream_version := 7, position := 99, max_age := none,
    max_count := none, stream_type := "t" }

/-- Claim C9: for every user stream id s, the companion metadata stream
id used by append (through insertMessages), setStreamMetadata and
getStreamMetadata is exactly the string "$$" concatenated with s. -/
theorem c9_metadata_stream_id (s : String) (v : Int) :
    toMetadataStreamId s = "$$" ++ s ∧
    (appendQueryFor s v).metaStreamId = "$$" ++ s ∧
    (setStreamMetadataQueryFor s v).metaStreamId = "$$" ++ s ∧
    (getStreamMetadataReadTarget s).streamId = "$$" ++ s :=
  ⟨rfl, rfl, rfl, rfl⟩

/-- Claim C3 (counterexample): a readStream call with the Position.End
sentinel issues its query at 9007199254740991 = Number.MAX_SAFE_INTEGER,
which is not the maximum 63-bit integer 9223372036854775807 the claim
names. -/
theorem c3_counterexample :
    (readStreamQueryFor "s1" .endSentinel 10 true).fromVersion = 9007199254740991 ∧
    ¬ (readStreamQueryFor "s1" .endSentinel 10 true).fromVersion = 9223372036854775807 := by
  decide

/-- Claim C3 (amended): readStream maps the Position.End sentinel to
Number.MAX_SAFE_INTEGER = 9007199254740991 before the storage query is
issued; the mapping to the maximum 63-bit integer 9223372036854775807 is
performed by readAll (readAllInternal), not by readStream. -/
theorem c3_sentinel_mapping (streamId : String) (count : Int) (forward : Bool) :
    (readStreamQueryFor streamId .endSentinel count forward).fromVersion = 9007199254740991 ∧
    numberMaxSafeInteger = 9007199254740991 ∧
    resolveReadAllFrom .endSentinel = "9223372036854775807" ∧
    (readAllQueryFor .endSentinel count forward).fromPosition = "9223372036854775807" := by
  refine ⟨?_, rfl, rfl, rfl⟩
  show max (0 : Int) (resolveReadStreamFrom .endSentinel) = 9007199254740991
  decide

/-- Claim C8: a readStream call whose stream-info query returns no row
yields the zero result: streamVersion 0, isEnd true, no messages,
nextVersion 0 and streamPosition "0". -/
theorem c8_zero_result (streamId : String) (fromInput : ReadFrom) (count : Int)
    (forward : Bool) (storage : ReadStreamQuery → StreamPage) (rows : List MsgRow)
    (hsid : ¬ streamId = "") (hcount : 0 < count)
    (hstore : storage (readStreamQueryFor streamId fromInput count forward) =
      ⟨rows, none⟩) :
    readStream (some streamId) fromInput count forward storage =
      .ok { nextVersion := 0, streamId := streamId, streamPosition := "0",
            streamVersion := 0, maxAge := some 0, maxCount := some 0,
            streamType := none, isEnd := true, messages := [] } := by
  have h1 : requiredStringCheck "streamId" (some streamId) = none := by
    simp [requiredStringCheck, hsid]
  have h2 : ¬ count ≤ 0 := by omega
  simp [readStream, h1, if_neg h2, hstore, zeroReadStreamResult]

/-- Claim C8 (witness): concrete evaluation of the zero result on an
unknown stream. -/
theorem c8_zero_result_witness :
    readStream (some "s1") (.version 0) 10 true (fun _ => ⟨[], none⟩) =
      .ok { nextVersion := 0, streamId := "s1", streamPosition := "0",
            streamVersion := 0, maxAge := some 0, maxCount := some 0,
            streamType := none, isEnd := true, messages := [] } :=
  c8_zero_result "s1" (.version 0) 10 true (fun _ => ⟨[], none⟩) []
    (by decide) (by decide) rfl

/-- Once a notifier is cached, any further sequence of subscribe calls
returns that cached notifier every time and leaves the state unchanged. -/
theorem runSubscribeOps_cached (cfg : NotifierConfig) (n0 : Notifier)
    (ops : List SubscribeOp) (st : NotifierState) (h : st.cached = some n0) :
    runSubscribeOps cfg ops st = (List.replicate ops.length n0, st) := by
  induction ops with
  | nil => simp [runSubscribeOps]
  | cons op rest ih =>
      cases op <;>
        simp [runSubscribeOps, subscribeStep, getNotifier, h, ih, List.replicate_succ]

/-- From a fresh store, the first subscribe call creates the notifier and
every later call reuses it. -/
theorem runSubscribeOps_from_initial (cfg : NotifierConfig) (op : SubscribeOp)
    (rest : List SubscribeOp) :
    runSubscribeOps cfg (op :: rest) initialNotifierState =
      (List.replicate (rest.length + 1) (mkNotifier cfg 0),
       { cached := some (mkNotifier cfg 0), createdCount := 1 }) := by
  have hstep : subscribeStep cfg initialNotifierState op =
      (mkNotifier cfg 0,
       { cached := some (mkNotifier cfg 0), createdCount := 1 }) := by
    cases op <;> simp [subscribeStep, getNotifier, initialNotifierState]
  have hrest := runSubscribeOps_cached cfg (mkNotifier cfg 0) rest
    { cached := some (mkNotifier cfg 0), createdCount := 1 } rfl
  simp [runSubscribeOps, hstep, hrest, List.replicate_succ]

/-- Claim C10: over any sequence of subscribeToStream and subscribeToAll
calls on one store instance, exactly one notifier is created by the first
call (a polling notifier at 500 ms under the default configuration) and
every subscription receives that same cached instance; no sequence of
subscribe calls ever creates more than one notifier. -/
theorem c10_notifier_cached_once (cfg : NotifierConfig) (ops : List SubscribeOp)
    (n : Notifier) (hn : n ∈ (runSubscribeOps cfg ops initialNotifierState).1) :
    (runSubscribeOps cfg ops initialNotifierState).2.createdCount = 1 ∧
    n = mkNotifier cfg 0 ∧
    (runSubscribeOps cfg ops initialNotifierState).2.cached =
      some (mkNotifier cfg 0) ∧
    (∀ ops2 : List SubscribeOp,
      (runSubscribeOps cfg ops2 initialNotifierState).2.createdCount ≤ 1) ∧
    mkNotifier (.poll none) 0 = .polling 500 0 := by
  cases ops with
  | nil => exact absurd hn (by simp [runSubscribeOps])
  | cons op rest =>
      rw [runSubscribeOps_from_initial] at hn ⊢
      refine ⟨rfl, List.eq_of_mem_replicate hn, rfl, ?_, rfl⟩
      intro ops2
      cases ops2 with
      | nil => simp [runSubscribeOps, initialNotifierState]
      | cons op2 rest2 =>
          rw [runSubscribeOps_from_initial]

/-- Claim C10 (witness): two subscribe calls on a default-configured
store leave exactly one created notifier. -/
theorem c10_notifier_cached_once_witness :
    (runSubscribeOps (NotifierConfig.poll none)
        [SubscribeOp.toStream "a", SubscribeOp.toAll]
        initialNotifierState).2.createdCount = 1 :=
  (c10_notifier_cached_once (.poll none) [.toStream "a", .toAll]
      (mkNotifier (.poll none) 0) (by decide)).1

/-- One message passes the source validation chain exactly when it is
valid in the sense of the specification. -/
theorem validateMessage_none_iff (i : Nat) (m : NewStreamMessage) :
    validateMessage i m = none ↔ specMsgValid m = true := by
  rcases m with ⟨mid, mty, mda⟩
  cases mid with
  | none => simp [validateMessage, requiredCheck, specMsgValid]
  | some mid =>
      cases hmu : isUuid mid with
      | false =>
          simp [validateMessage, requiredCheck, uuidCheck, hmu, specMsgValid]
      | true =>
          cases mty with
          | none => simp [validateMessage, requiredCheck, uuidCheck, hmu, specMsgValid]
          | some t =>
              by_cases hte : t = ""
              · simp [validateMessage, requiredCheck, uuidCheck, hmu, hte, specMsgValid]
              · cases mda <;>
                  simp [validateMessage, requiredCheck, uuidCheck, hmu, hte, specMsgValid]

/-- The message validation loop passes exactly when every message is
valid in the sense of the specification. -/
theorem validateMessages_none_iff (i : Nat) (msgs : List NewStreamMessage) :
    validateMessages i msgs = none ↔ msgs.all specMsgValid = true := by
  induction msgs generalizing i with
  | nil => simp [validateMessages]
  | cons m rest ih =>
      cases hv : validateMessage i m with
      | some e =>
          have hb : ¬ specMsgValid m = true := by
            intro hb
            rw [← validateMessage_none_iff i m] at hb
            simp [hv] at hb
          simp [validateMessages, hv, List.all_cons, hb]
      | none =>
          have hb : specMsgValid m = true := (validateMessage_none_iff i m).mp hv
          simp [validateMessages, hv, List.all_cons, hb, ih (i + 1)]

/-- Claim C4: appendToStream validation passes exactly under the
conditions of the specification (non-empty streamId not beginning with a
dollar sign, expectedVersion present, each message with a UUID messageId,
a non-empty type and non-null data), and every validation failure is
raised as an InvalidParameterError before the dispose check, before the
latch and before any storage I/O. -/
theorem c4_validation (disposing : Bool) (streamId : Option String)
    (expectedVersion : Option Int) (newMessages : Option (List NewStreamMessage))
    (attempts : Nat → AttemptOutcome) :
    (validateAppend streamId expectedVersion newMessages = none ↔
      specValidAppendInputs streamId expectedVersion newMessages = true) ∧
    (∀ msg, validateAppend streamId expectedVersion newMessages = some msg →
      appendToStreamRun disposing streamId expectedVersion newMessages attempts =
        { result := .error (.invalidParameter msg)
          latchEntered := false
          storageAttempts := 0 }) := by
  constructor
  · cases streamId with
    | none => simp [validateAppend, requiredStringCheck, specValidAppendInputs]
    | some s =>
        cases newMessages with
        | none =>
            by_cases hse : s = ""
            · simp [validateAppend, requiredStringCheck, hse, specValidAppendInputs]
            · by_cases hsp : strStartsWith s "$" = true
              · simp [validateAppend, requiredStringCheck, hse,
                  notOperationalStreamCheck, hsp, specValidAppendInputs, requiredCheck]
              · cases expectedVersion <;>
                  simp [validateAppend, requiredStringCheck, hse,
                    notOperationalStreamCheck, hsp, specValidAppendInputs, requiredCheck]
        | some msgs =>
            by_cases hse : s = ""
            · simp [validateAppend, requiredStringCheck, hse, specValidAppendInputs]
            · by_cases hsp : strStartsWith s "$" = true
              · simp [validateAppend, requiredStringCheck, hse,
                  notOperationalStreamCheck, hsp, specValidAppendInputs, requiredCheck]
              · cases expectedVersion <;>
                  simp [validateAppend, requiredStringCheck, hse,
                    notOperationalStreamCheck, hsp, specValidAppendInputs,
                    requiredCheck, validateMessages_none_iff 0 msgs]
  · intro msg h
    simp [appendToStreamRun, h]

/-- Claim C4 (witness): the operational stream id from the test suite is
rejected with InvalidParameterError before the latch and before any
storage I/O. -/
theorem c4_validation_witness :
    appendToStreamRun false (some "$lol") (some (-2)) (some [])
        (fun _ => .ok okInsert) =
      { result := .error (.invalidParameter "streamId must not start with $")
        latchEntered := false
        storageAttempts := 0 } :=
  (c4_validation false (some "$lol") (some (-2)) (some [])
      (fun _ => .ok okInsert)).2 "streamId must not start with $" (by decide)

/-- A successful attempt ends the retry loop immediately. -/
theorem retryLoop_ok (ev : Int) (attempts : Nat → AttemptOutcome) (i fuel : Nat)
    (r : AppendResult) (h : runAppendAttempt ev (attempts i) = .ok r) :
    retryLoop ev attempts i fuel = (.ok r, i + 1) := by
  cases fuel <;> simp [retryLoop, h]

/-- A non-retryable failure ends the retry loop immediately. -/
theorem retryLoop_fail (ev : Int) (attempts : Nat → AttemptOutcome) (i fuel : Nat)
    (e : StoreError) (h : runAppendAttempt ev (attempts i) = .error (.fail e)) :
    retryLoop ev attempts i fuel = (.error e, i + 1) := by
  cases fuel <;> simp [retryLoop, h]

/-- A retryable failure consumes one unit of fuel and moves to the next
attempt. -/
theorem retryLoop_again (ev : Int) (attempts : Nat → AttemptOutcome) (i fuel : Nat)
    (e : StoreError) (h : runAppendAttempt ev (attempts i) = .error (.retryAgain e)) :
    retryLoop ev attempts i (fuel + 1) = retryLoop ev attempts (i + 1) fuel := by
  simp [retryLoop, h]

/-- The retry loop makes at most fuel + 1 attempts beyond the start index. -/
theorem retryLoop_count_le (ev : Int) (attempts : Nat → AttemptOutcome) :
    ∀ fuel i, (retryLoop ev attempts i fuel).2 ≤ i + fuel + 1 := by
  intro fuel
  induction fuel with
  | zero =>
      intro i
      cases h : runAppendAttempt ev (attempts i) with
      | ok r => simp only [retryLoop, h]; omega
      | error f => cases f <;> simp only [retryLoop, h] <;> omega
  | succ n ih =>
      intro i
      cases h : runAppendAttempt ev (attempts i) with
      | ok r => simp only [retryLoop, h]; omega
      | error f =>
          cases f with
          | retryAgain e =>
              have hnext := ih (i + 1)
              simp only [retryLoop, h]
              omega
          | fail e => simp only [retryLoop, h]; omega

/-- A ConcurrencyError raised by throwIfErrorCode carries the fixed
default message, which matches no constraint-name suffix, so
handlePotentialConcurrencyError passes it through as a plain failure. -/
theorem handle_concurrency_passthrough (ev : Int) :
    handlePotentialConcurrencyError .concurrency ev = .fail .concurrency := by
  have h1 : isConcurrencyUniqueConstraintViolation .concurrency = false := by decide
  have h2 : isDuplicateMessageIdUniqueConstraintViolation .concurrency = false := by decide
  simp [handlePotentialConcurrencyError, h1, h2]

/-- Claim C2 (amended): an append conflict signalled by the constraint
names stream_id_key or message_stream_id_internal_stream_version_unique
is retried exactly when expectedVersion is Any (-2), under retryOpts with
factor 1.05, minimum 0 ms, maximum 50 ms and 200 tries, and fails
immediately with ConcurrencyError for any other expectedVersion; a
conflict signalled by the sentinel current_version = -9 is never retried
and fails immediately with ConcurrencyError for every expectedVersion. -/
theorem c2_concurrency_retry (ev : Int) (e : PgError) (r : InsertResult)
    (attempts : Nat → AttemptOutcome)
    (hconc : isConcurrencyUniqueConstraintViolation (.storage e) = true)
    (h0 : attempts 0 = .errored e)
    (h1 : attempts 1 = .ok r)
    (hr : ¬ r.current_version = concurrencyIssueCode) :
    retryOpts = { factor := 1.05, tries := 200, minTimeout := 0, maxTimeout := 50 } ∧
    (ev = expectedVersionAny →
      appendRetry ev attempts =
        (.ok { streamVersion := r.current_version,
               streamPosition := r.current_position }, 2)) ∧
    (¬ ev = expectedVersionAny →
      appendRetry ev attempts = (.error .concurrency, 1)) ∧
    (∀ ev2 : Int, ∀ attempts2 : Nat → AttemptOutcome, ∀ r0 : InsertResult,
      attempts2 0 = .ok r0 → r0.current_version = concurrencyIssueCode →
      appendRetry ev2 attempts2 = (.error .concurrency, 1)) ∧
    (∀ (ev2 : Int) (attempts2 : Nat → AttemptOutcome),
      (appendRetry ev2 attempts2).2 ≤ retryOpts.tries) := by
  refine ⟨rfl, ?_, ?_, ?_, ?_⟩
  · intro hev
    have ha0 : runAppendAttempt ev (attempts 0) = .error (.retryAgain (.storage e)) := by
      simp [runAppendAttempt, h0, handlePotentialConcurrencyError, hconc, hev]
    have ha1 : runAppendAttempt ev (attempts 1) =
        .ok { streamVersion := r.current_version,
              streamPosition := r.current_position } := by
      simp [runAppendAttempt, h1, hr]
    show retryLoop ev attempts 0 (retryOpts.tries - 1) = _
    rw [show retryOpts.tries - 1 = 198 + 1 from rfl]
    rw [retryLoop_again ev attempts 0 198 _ ha0]
    exact retryLoop_ok ev attempts 1 198 _ ha1
  · intro hev
    have ha0 : runAppendAttempt ev (attempts 0) = .error (.fail .concurrency) := by
      simp [runAppendAttempt, h0, handlePotentialConcurrencyError, hconc, hev]
    exact retryLoop_fail ev attempts 0 _ _ ha0
  · intro ev2 attempts2 r0 h02 hr0
    have ha : runAppendAttempt ev2 (attempts2 0) = .error (.fail .concurrency) := by
      simp [runAppendAttempt, h02, hr0, handle_concurrency_passthrough]
    exact retryLoop_fail ev2 attempts2 0 _ _ ha
  · intro ev2 attempts2
    have hle := retryLoop_count_le ev2 attempts2 (retryOpts.tries - 1) 0
    have heq : 0 + (retryOpts.tries - 1) + 1 = retryOpts.tries := by decide
    exact heq ▸ hle

/-- Claim C2 (counterexample): a conflict signalled by the sentinel
current_version = -9 is not retried even under ExpectedVersion.Any (-2):
with a sentinel first attempt and a second attempt that would succeed,
the append fails with ConcurrencyError after exactly one storage
attempt. -/
theorem c2_counterexample :
    appendRetry (-2) sentinelThenOkAttempts = (.error .concurrency, 1) := by
  decide

/-- Claim C2 (witness): a constraint-name conflict under Any is retried
and succeeds on the second attempt. -/
theorem c2_concurrency_retry_witness :
    appendRetry (-2) concThenOkAttempts =
      (.ok { streamVersion := 3, streamPosition := "42" }, 2) :=
  (c2_concurrency_retry (-2) concViolationError okInsert concThenOkAttempts
      (by decide) rfl rfl (by decide)).2.1 rfl

/-- The capture group of the regex collects exactly the characters before
the first closing parenthesis. -/
theorem captureGroup_exact (u post : List Char)
    (hu1 : ')' ∉ u) (hu2 : Char.ofNat 10 ∉ u) :
    captureGroup (u ++ ')' :: post) = some u := by
  induction u with
  | nil => simp [captureGroup]
  | cons c cs ih =>
      have hc1 : ¬ c = ')' := by
        intro h
        subst h
        exact hu1 (List.mem_cons_self _ _)
      have hc2 : ¬ c = Char.ofNat 10 := by
        intro h
        subst h
        exact hu2 (List.mem_cons_self _ _)
      have ih2 := ih (fun h => hu1 (List.mem_cons_of_mem _ h))
        (fun h => hu2 (List.mem_cons_of_mem _ h))
      simp [captureGroup, hc1, hc2, ih2]

/-- The leftmost-match scan finds the group at the first equals sign. -/
theorem findEqParen_exact (pre u post : List Char)
    (hpre : '=' ∉ pre) (hu1 : ')' ∉ u) (hu2 : Char.ofNat 10 ∉ u) :
    findEqParen (pre ++ '=' :: '(' :: (u ++ ')' :: post)) = some u := by
  induction pre with
  | nil => simp [findEqParen, captureGroup_exact u post hu1 hu2]
  | cons c cs ih =>
      have hc : ¬ c = '=' := by
        intro h
        subst h
        exact hpre (List.mem_cons_self _ _)
      have ih2 := ih (fun h => hpre (List.mem_cons_of_mem _ h))
      simp [findEqParen, hc, ih2]

/-- A message ending in the duplicate-message constraint name cannot also
end in one of the concurrency constraint names. -/
theorem not_conc_of_dup (err : StoreError)
    (h : isDuplicateMessageIdUniqueConstraintViolation err = true) :
    isConcurrencyUniqueConstraintViolation err = false := by
  have hsuf : ("\"message_message_id_key\"").data <:+ (errMessage err).data := by
    have h2 := h
    unfold isDuplicateMessageIdUniqueConstraintViolation strEndsWith at h2
    exact List.isSuffixOf_iff_suffix.mp h2
  have h1 : ¬ ("\"stream_id_key\"").data <:+ (errMessage err).data := by
    intro hcs
    rcases List.suffix_or_suffix_of_suffix hcs hsuf with hss | hss
    · exact absurd (List.isSuffixOf_iff_suffix.mpr hss) (by decide)
    · exact absurd (List.isSuffixOf_iff_suffix.mpr hss) (by decide)
  have h2 : ¬ ("\"message_stream_id_internal_stream_version_unique\"").data <:+
      (errMessage err).data := by
    intro hcs
    rcases List.suffix_or_suffix_of_suffix hcs hsuf with hss | hss
    · exact absurd (List.isSuffixOf_iff_suffix.mpr hss) (by decide)
    · exact absurd (List.isSuffixOf_iff_suffix.mpr hss) (by decide)
  unfold isConcurrencyUniqueConstraintViolation strEndsWith
  rw [Bool.or_eq_false_iff]
  constructor
  · rw [← Bool.not_eq_true]
    intro hb
    exact h1 (List.isSuffixOf_iff_suffix.mp hb)
  · rw [← Bool.not_eq_true]
    intro hb
    exact h2 (List.isSuffixOf_iff_suffix.mp hb)

/-- Claim C5: an append failing with the message_message_id_key
unique-constraint violation is never retried, for every expectedVersion,
and fails with a DuplicateMessageError whose id is the capture of the
pattern =(uuid) on the driver detail field. -/
theorem c5_duplicate_message (e : PgError) (ev : Int)
    (attempts : Nat → AttemptOutcome) (pre u post : String)
    (hdup : isDuplicateMessageIdUniqueConstraintViolation (.storage e) = true)
    (hdetail : e.detail = pre ++ "=(" ++ u ++ ")" ++ post)
    (hpre : '=' ∉ pre.data) (hu1 : ')' ∉ u.data) (hu2 : Char.ofNat 10 ∉ u.data)
    (h0 : attempts 0 = .errored e) :
    handlePotentialConcurrencyError (.storage e) ev = .fail (.duplicateMessage u) ∧
    appendRetry ev attempts = (.error (.duplicateMessage u), 1) := by
  have hconc := not_conc_of_dup (.storage e) hdup
  have hextract : extractUuidKeyFromConstraintViolationError (.storage e) = u := by
    have hget : errDetail (StoreError.storage e) = e.detail := rfl
    have hdata : (pre ++ "=(" ++ u ++ ")" ++ post).data =
        pre.data ++ '=' :: '(' :: (u.data ++ ')' :: post.data) := by
      simp [String.data_append, show ("=(").data = ['=', '('] from rfl,
        show (")").data = [')'] from rfl]
    unfold extractUuidKeyFromConstraintViolationError
    rw [hget, hdetail, hdata, findEqParen_exact pre.data u.data post.data hpre hu1 hu2]
  have hhandle : handlePotentialConcurrencyError (.storage e) ev =
      .fail (.duplicateMessage u) := by
    simp [handlePotentialConcurrencyError, hconc, hdup, hextract]
  refine ⟨hhandle, ?_⟩
  have ha : runAppendAttempt ev (attempts 0) =
      .error (.fail (.duplicateMessage u)) := by
    simp [runAppendAttempt, h0, hhandle]
  exact retryLoop_fail ev attempts 0 _ _ ha

/-- Claim C5 (witness): concrete duplicate-id failure with a
Postgres-style detail line, under an expectedVersion other than Any. -/
theorem c5_duplicate_message_witness :
    appendRetry 7 dupAttempts =
      (.error (.duplicateMessage "0a7240b5-e1ac-40fc-91fe-9a28716a0b9e"), 1) :=
  (c5_duplicate_message dupViolationError 7 dupAttempts
      "Key (message_id)" "0a7240b5-e1ac-40fc-91fe-9a28716a0b9e" " already exists."
      (by decide) (by decide) (by decide) (by decide) (by decide) rfl).2

/-- Claim C6: for a readStream call against a stream that exists,
nextVersion is streamInfo.streamVersion + 1 when reading forward at the
end (including the empty page) and lastMessage.streamVersion + 1 when not
at the end; reading backward it is
max(0, (isEnd then 0 else lastMessage.streamVersion) - 1). -/
theorem c6_next_version (streamId : String) (fromInput : ReadFrom) (count : Int)
    (forward : Bool) (storage : ReadStreamQuery → StreamPage)
    (rows : List MsgRow) (info : StreamInfoRow)
    (hsid : ¬ streamId = "") (hcount : 0 < count)
    (hstore : storage (readStreamQueryFor streamId fromInput count forward) =
      ⟨rows, some info⟩) :
    ∃ r, readStream (some streamId) fromInput count forward storage = .ok r ∧
      r.nextVersion =
        (if forward then
          (if pageIsEnd rows count = true then info.stream_version + 1
           else lastStreamVersionOf (pageOf rows count) info.stream_version + 1)
         else
          max 0 ((if pageIsEnd rows count = true then 0
                  else lastStreamVersionOf (pageOf rows count) 0) - 1)) := by
  have h1 : requiredStringCheck "streamId" (some streamId) = none := by
    simp [requiredStringCheck, hsid]
  have h2 : ¬ count ≤ 0 := by omega
  by_cases hlen : (rows.length : Int) = count + 1
  · refine ⟨mapReadStreamResult rows.dropLast info false forward, ?_, ?_⟩
    · simp [readStream, h1, if_neg h2, hstore, hlen]
    · have hdne : rows.dropLast ≠ [] := by
        have h3 : 1 < rows.length := by omega
        intro h0
        have h4 := congrArg List.length h0
        simp [List.length_dropLast] at h4
        omega
      obtain ⟨m, hm⟩ :=
        Option.isSome_iff_exists.mp (List.getLast?_isSome.mpr hdne)
      have hpe : pageIsEnd rows count = false := by simp [pageIsEnd, hlen]
      have hpo : pageOf rows count = rows.dropLast := by simp [pageOf, hlen]
      have hlast : lastStreamVersionOf rows.dropLast info.stream_version =
          m.stream_version := by
        simp [lastStreamVersionOf, hm]
      have hlast0 : lastStreamVersionOf rows.dropLast 0 = m.stream_version := by
        simp [lastStreamVersionOf, hm]
      cases forward <;>
        simp [mapReadStreamResult, hm, hpe, hpo, hlast, hlast0]
  · refine ⟨mapReadStreamResult rows info true forward, ?_, ?_⟩
    · simp [readStream, h1, if_neg h2, hstore, hlen]
    · have hpe : pageIsEnd rows count = true := by simp [pageIsEnd, hlen]
      cases forward with
      | false => simp [mapReadStreamResult, hpe]
      | true =>
          cases hm : rows.getLast? <;>
            simp [mapReadStreamResult, hm, hpe]

/-- Claim C6 (witness): a two-row page against count 1 drops the probe
row and yields nextVersion from the last remaining message. -/
theorem c6_next_version_witness :
    ∃ r, readStream (some "s1") (.version 0) 1 true
        (fun _ => ⟨[sampleRow 5 50, sampleRow 6 60], some sampleInfo⟩) = .ok r ∧
      r.nextVersion =
        (if true then
          (if pageIsEnd [sampleRow 5 50, sampleRow 6 60] 1 = true then
            sampleInfo.stream_version + 1
           else lastStreamVersionOf (pageOf [sampleRow 5 50, sampleRow 6 60] 1)
             sampleInfo.stream_version + 1)
         else
          max 0 ((if pageIsEnd [sampleRow 5 50, sampleRow 6 60] 1 = true then 0
                  else lastStreamVersionOf (pageOf [sampleRow 5 50, sampleRow 6 60] 1)
                    0) - 1)) :=
  c6_next_version "s1" (.version 0) 1 true
    (fun _ => ⟨[sampleRow 5 50, sampleRow 6 60], some sampleInfo⟩)
    [sampleRow 5 50, sampleRow 6 60] sampleInfo (by decide) (by decide) rfl

/-- A pure read is unaffected by the gap-reload loop: every branch
returns the same page. -/
theorem gapReloadLoop_pure (fromInput : ReadAllFrom) (count : Int)
    (readInternal : ReadAllFrom → Int → Bool → ReadAllResult) :
    ∀ n, gapReloadLoop fromInput count readInternal n =
      readInternal fromInput count true := by
  intro n
  induction n with
  | zero => rfl
  | succ k ih => simp [gapReloadLoop, ih]

/-- Page and next-position behaviour of readAllInternal, split on the
empty and non-empty cases of the returned rows. -/
theorem readAllInternal_spec (fromInput : ReadAllFrom) (count : Int) (forward : Bool)
    (storage : ReadAllQuery → List MsgRow) (rows : List MsgRow)
    (hcount : 0 < count)
    (hrows : storage (readAllQueryFor fromInput count forward) = rows) :
    (rows = [] →
      readAllInternal fromInput count forward storage =
        { isEnd := true, messages := []
          nextPosition := if forward then resolveReadAllFrom fromInput else "0" }) ∧
    (¬ rows = [] →
      (readAllInternal fromInput count forward storage).messages =
        pageOf (rows.map mapMessageResult) count ∧
      (readAllInternal fromInput count forward storage).nextPosition =
        (if forward then
          toString (lastPositionOf (pageOf (rows.map mapMessageResult) count) 0 + 1)
         else
          toString (max (lastPositionOf (pageOf (rows.map mapMessageResult) count) 0 - 1)
            0))) := by
  constructor
  · intro hnil
    rw [hnil] at hrows
    simp [readAllInternal, hrows]
  · intro hne
    have hmaplen : ¬ rows.length = 0 := by
      intro h0
      exact hne (List.length_eq_zero.mp h0)
    by_cases hlen : (rows.length : Int) = count + 1
    · have hpo : pageOf (rows.map mapMessageResult) count =
          (rows.map mapMessageResult).dropLast := by
        simp [pageOf, List.length_map, hlen]
      have hdne : (rows.map mapMessageResult).dropLast ≠ [] := by
        have h3 : 1 < rows.length := by omega
        intro h0
        have h4 := congrArg List.length h0
        simp [List.length_dropLast, List.length_map] at h4
        omega
      obtain ⟨m, hm⟩ :=
        Option.isSome_iff_exists.mp (List.getLast?_isSome.mpr hdne)
      have hlast : lastPositionOf (rows.map mapMessageResult).dropLast 0 =
          m.position := by
        simp [lastPositionOf, hm]
      rw [hpo]
      simp [readAllInternal, hrows, hmaplen, hlen, hm, hlast]
    · have hpo : pageOf (rows.map mapMessageResult) count =
          rows.map mapMessageResult := by
        simp [pageOf, List.length_map, hlen]
      have hdne : rows.map mapMessageResult ≠ [] := by
        simp only [ne_eq, List.map_eq_nil_iff]
        exact hne
      obtain ⟨m, hm⟩ :=
        Option.isSome_iff_exists.mp (List.getLast?_isSome.mpr hdne)
      have hlast : lastPositionOf (rows.map mapMessageResult) 0 = m.position := by
        simp [lastPositionOf, hm]
      rw [hpo]
      simp [readAllInternal, hrows, hmaplen, hlen, hm, hlast]

/-- Claim C7: readAll computes nextPosition with integer arithmetic on
the message positions: forward on a non-empty page it is
lastMessage.position + 1, backward it is max(0, lastMessage.position - 1)
clamped at zero; on an empty page the result isEnd with nextPosition the
resolved input position (forward) or "0" (backward). -/
theorem c7_next_position (fromInput : ReadAllFrom) (count : Int) (backward : Bool)
    (gapReloadTimes : Nat) (storage : ReadAllQuery → List MsgRow) (rows : List MsgRow)
    (hcount : 0 < count)
    (hrows : storage (readAllQueryFor fromInput count (!backward)) = rows) :
    ∃ res, readAll (some fromInput) (some count) gapReloadTimes storage backward =
        .ok res ∧
      (rows = [] →
        res.isEnd = true ∧ res.messages = [] ∧
        res.nextPosition =
          (if backward then "0" else resolveReadAllFrom fromInput)) ∧
      (¬ rows = [] →
        res.messages = pageOf (rows.map mapMessageResult) count ∧
        res.nextPosition =
          (if backward then toString (max (lastPositionOf res.messages 0 - 1) 0)
           else toString (lastPositionOf res.messages 0 + 1))) := by
  have h2 : ¬ count ≤ 0 := by omega
  cases backward with
  | false =>
      simp only [Bool.not_false] at hrows
      have hspec := readAllInternal_spec fromInput count true storage rows hcount hrows
      refine ⟨readAllInternal fromInput count true storage, ?_, ?_, ?_⟩
      · simp [readAll, requiredCheck, if_neg h2, detectGapsAndReloadAll,
          gapReloadLoop_pure]
      · intro hnil
        rw [hspec.1 hnil]
        simp
      · intro hne
        obtain ⟨hmsg, hpos⟩ := hspec.2 hne
        refine ⟨hmsg, ?_⟩
        rw [hpos, hmsg]
        simp
  | true =>
      simp only [Bool.not_true] at hrows
      have hspec := readAllInternal_spec fromInput count false storage rows hcount hrows
      refine ⟨readAllInternal fromInput count false storage, ?_, ?_, ?_⟩
      · simp [readAll, requiredCheck, if_neg h2]
      · intro hnil
        rw [hspec.1 hnil]
        simp
      · intro hne
        obtain ⟨hmsg, hpos⟩ := hspec.2 hne
        refine ⟨hmsg, ?_⟩
        rw [hpos, hmsg]
        simp

/-- Claim C7 (witness): a short forward page yields isEnd with
nextPosition one past the last message position. -/
theorem c7_next_position_witness :
    ∃ res, readAll (some (.pos "3")) (some 5) 1
        (fun _ => [sampleRow 0 3, sampleRow 1 5]) false = .ok res ∧
      ([sampleRow 0 3, sampleRow 1 5] = ([] : List MsgRow) →
        res.isEnd = true ∧ res.messages = [] ∧
        res.nextPosition = (if false then "0" else resolveReadAllFrom (.pos "3"))) ∧
      (¬ [sampleRow 0 3, sampleRow 1 5] = ([] : List MsgRow) →
        res.messages = pageOf ([sampleRow 0 3, sampleRow 1 5].map mapMessageResult) 5 ∧
        res.nextPosition =
          (if false then toString (max (lastPositionOf res.messages 0 - 1) 0)
           else toString (lastPositionOf res.messages 0 + 1))) :=
  c7_next_position (.pos "3") 5 false 1 (fun _ => [sampleRow 0 3, sampleRow 1 5])
    [sampleRow 0 3, sampleRow 1 5] (by decide) rfl

/-- Claim C1 (counterexample): a deleteStream call made after dispose has
begun does not fail fast with DisposedError; it enters the write latch
and performs a storage round-trip. -/
theorem c1_counterexample :
    (deleteStreamRun true (some "s1") (some 0) (fun _ => .ok 0)).latchEntered = true ∧
    (deleteStreamRun true (some "s1") (some 0) (fun _ => .ok 0)).storageAttempts = 1 ∧
    (deleteStreamRun true (some "s1") (some 0) (fun _ => .ok 0)).result = .ok () := by
  decide

/-- Claim C1 (amended): after dispose has begun, appendToStream fails
fast with DisposedError before taking the write latch and before any
storage I/O; deleteStream, setStreamMetadata and deleteMessage perform no
such check: they behave exactly as on a live store, entering the write
latch regardless of the disposing flag. -/
theorem c1_dispose_gate (streamId : String) (ev : Int)
    (msgs : List NewStreamMessage) (attempts : Nat → AttemptOutcome)
    (dAttempts : Nat → DeleteAttemptOutcome) (mOutcome : MetaAttemptOutcome)
    (delStorage : Except PgError Unit) (sid2 mid : String)
    (hvalid : validateAppend (some streamId) (some ev) (some msgs) = none) :
    appendToStreamRun true (some streamId) (some ev) (some msgs) attempts =
      { result := .error (.disposed "The stream store has been disposed and is not accepting writes.")
        latchEntered := false
        storageAttempts := 0 } ∧
    deleteStreamRun true (some streamId) (some ev) dAttempts =
      deleteStreamRun false (some streamId) (some ev) dAttempts ∧
    setStreamMetadataRun true (some streamId) (some ev) true mOutcome =
      setStreamMetadataRun false (some streamId) (some ev) true mOutcome ∧
    deleteMessageRun true sid2 mid delStorage =
      deleteMessageRun false sid2 mid delStorage ∧
    (deleteMessageRun true sid2 mid delStorage).latchEntered = true := by
  refine ⟨?_, rfl, rfl, rfl, ?_⟩
  · simp [appendToStreamRun, hvalid]
  · cases delStorage <;> rfl

/-- Claim C1 (amended, witness): concrete evaluation of the append
dispose gate. -/
theorem c1_dispose_gate_witness :
    appendToStreamRun true (some "s1") (some 0) (some [])
        (fun _ => .ok okInsert) =
      { result := .error (.disposed "The stream store has been disposed and is not accepting writes.")
        latchEntered := false
        storageAttempts := 0 } :=
  (c1_dispose_gate "s1" 0 [] (fun _ => .ok okInsert) (fun _ => .ok 0)
      (.ok 0) (.ok ()) "s2" "m1" (by decide)).1

end StreamSource
